import Mathlib

/-!
Verification of the data-converter loading helpers of this repository
(`packages/common/src/data-converter-helpers.ts`).

The embedding models the small fragment of JavaScript semantics the helpers
depend on: runtime values with `typeof`, property access, own-property
checks, the CommonJS `require` of a module by path (as an environment
mapping paths to either a module export value or a thrown error), and the
error values the helpers throw (`ValueError` from the support library
versus a rethrown original error).
-/

/-- A JavaScript runtime value, restricted to the shapes the helpers
inspect: `typeof`, null checks, property lookup and function members. -/
inductive JSValue where
  | vUndefined
  | vNull
  | vBool (b : Bool)
  | vNum (n : Int)
  | vStr (s : String)
  | vFunc (id : Nat)
  | vObj (fields : List (String × JSValue))
  | vArr (elems : List JSValue)

/-- JavaScript `typeof` on the modelled values (`typeof null` is
`"object"`, as in JavaScript). -/
def jsTypeof : JSValue → String
  | JSValue.vUndefined => "undefined"
  | JSValue.vNull => "object"
  | JSValue.vBool _ => "boolean"
  | JSValue.vNum _ => "number"
  | JSValue.vStr _ => "string"
  | JSValue.vFunc _ => "function"
  | JSValue.vObj _ => "object"
  | JSValue.vArr _ => "object"

/-- Property read `v[key]`: a missing property or a non-object receiver
yields `undefined`. -/
def getProp (v : JSValue) (key : String) : JSValue :=
  match v with
  | JSValue.vObj fields => (fields.lookup key).getD JSValue.vUndefined
  | _ => JSValue.vUndefined

/-- Is the value JavaScript `null`? (the `!== null` test in the source). -/
def isNull : JSValue → Bool
  | JSValue.vNull => true
  | _ => false

/-- Modelled from the spec: the `hasOwnProperty` helper imported from the
support library `@temporalio/workflow-common`, whose source is not in this
repository snapshot; it is the standard JavaScript own-property check. -/
def hasOwnProperty (v : JSValue) (key : String) : Bool :=
  match v with
  | JSValue.vObj fields => fields.any (fun f => f.1 == key)
  | _ => false

/-- An error value thrown by the module system or by user module code:
its class name, its optional `code` property, and its message. -/
structure JSError where
  name : String
  code : Option String
  message : String
deriving DecidableEq, Repr

/-- Modelled from the spec: the `errorCode` helper imported from the
support library `@temporalio/workflow-common`, whose source is not in this
repository snapshot; it reads the `code` property of a thrown error. -/
def errorCode (e : JSError) : Option String := e.code

/-- An error thrown by the helpers themselves: either a `ValueError`
(the specific error class of the support library that
`requirePayloadConverter` constructs) or some other error rethrown
unchanged. -/
inductive ThrownError where
  | valueError (message : String)
  | other (e : JSError)

/-- The runtime class name of a thrown error, used to compare the types of
two thrown errors. -/
def ThrownError.typeName : ThrownError → String
  | ThrownError.valueError _ => "ValueError"
  | ThrownError.other e => e.name

/-- Outcome of `require(path)`: the module's export object, or the error
the module system (or the module's own top-level code) threw. -/
inductive RequireResult where
  | ok (moduleExports : JSValue)
  | err (e : JSError)

/-- The ambient module system: what `require` does at each path. -/
def ModuleSystem := String → RequireResult

/-- The `DataConverter` configuration record. The fields follow the spec's
data model (the TypeScript interface lives in the support library, outside
this snapshot): an optional external reference path, an optional direct
converter instance, and an optional codec. -/
structure DataConverter where
  payloadConverterPath : Option String
  payloadConverter : Option JSValue
  payloadCodec : Option JSValue

/-- The resolved pair `loadDataConverter` returns. -/
structure LoadedDataConverter where
  payloadConverter : JSValue
  payloadCodec : JSValue

/-- Modelled from the spec: `defaultPayloadConverter` from the support
library — the built-in Composite Payload Converter instance, a fixed
object exposing `toPayload` and `fromPayload`. -/
def defaultPayloadConverter : JSValue :=
  JSValue.vObj [("toPayload", JSValue.vFunc 0), ("fromPayload", JSValue.vFunc 1)]

/-- Modelled from the spec: `defaultPayloadCodec` from the support
library — the identity codec instance. -/
def defaultPayloadCodec : JSValue :=
  JSValue.vObj [("encode", JSValue.vFunc 2), ("decode", JSValue.vFunc 3)]

/-- Translation of `isValidPayloadConverter`: a non-null object whose
`toPayload` and `fromPayload` members are both functions. -/
def isValidPayloadConverter (p : JSValue) : Bool :=
  jsTypeof p == "object" && !(isNull p) &&
    (["toPayload", "fromPayload"].all fun m => jsTypeof (getProp p m) == "function")

/-- The message of the `ValueError` thrown when `require` fails with
`MODULE_NOT_FOUND`. -/
def notFoundMessage (path : String) : String :=
  "Could not find a file at the specified payloadConverterPath: \x27" ++ path ++ "\x27."

/-- The message of the `ValueError` thrown when the `payloadConverter`
export fails the shape check. -/
def invalidShapeMessage (path : String) : String :=
  "payloadConverter export at " ++ path ++ " must be an object with toPayload and fromPayload methods"

/-- The message of the `ValueError` thrown when the module has no
`payloadConverter` named export. -/
def missingExportMessage (path : String) : String :=
  "Module " ++ path ++ " does not have a \x60payloadConverter\x60 named export"

/-- Translation of `requirePayloadConverter`: `require` the path; on a
`MODULE_NOT_FOUND` failure throw a `ValueError` naming the path, rethrow
any other failure; then demand a `payloadConverter` named export passing
the shape check. -/
def requirePayloadConverter (ms : ModuleSystem) (path : String) : Except ThrownError JSValue :=
  match ms path with
  | RequireResult.err error =>
      if errorCode error = some "MODULE_NOT_FOUND" then
        Except.error (ThrownError.valueError (notFoundMessage path))
      else
        Except.error (ThrownError.other error)
  | RequireResult.ok moduleExports =>
      if hasOwnProperty moduleExports "payloadConverter" then
        if isValidPayloadConverter (getProp moduleExports "payloadConverter") then
          Except.ok (getProp moduleExports "payloadConverter")
        else
          Except.error (ThrownError.valueError (invalidShapeMessage path))
      else
        Except.error (ThrownError.valueError (missingExportMessage path))

/-- Translation of `loadDataConverter`: start from the default converter,
replace it by the required one when `payloadConverterPath` is truthy, and
pair with `payloadCodec ?? defaultPayloadCodec`. -/
def loadDataConverter (ms : ModuleSystem) (dataConverter : Option DataConverter) :
    Except ThrownError LoadedDataConverter :=
  let codec := (dataConverter.bind (fun d => d.payloadCodec)).getD defaultPayloadCodec
  match dataConverter.bind (fun d => d.payloadConverterPath) with
  | some path =>
      if path ≠ "" then
        match requirePayloadConverter ms path with
        | Except.ok pc => Except.ok ⟨pc, codec⟩
        | Except.error e => Except.error e
      else Except.ok ⟨defaultPayloadConverter, codec⟩
  | none => Except.ok ⟨defaultPayloadConverter, codec⟩

/-- Modelled from the spec: the normalization the spec describes for the
codec configuration — a supplied ordered list is kept, a single instance
becomes a one-element pipeline. Stated for comparison with the code. -/
def normalizeCodecSpec : JSValue → JSValue
  | JSValue.vArr cs => JSValue.vArr cs
  | c => JSValue.vArr [c]

/-- A module system with no modules: every `require` fails with
`MODULE_NOT_FOUND`. -/
def emptyModules : ModuleSystem :=
  fun path => RequireResult.err ⟨"Error", some "MODULE_NOT_FOUND", "Cannot find module " ++ path⟩

/-- A concrete custom converter instance, distinct from the default one. -/
def customConverter : JSValue :=
  JSValue.vObj [("toPayload", JSValue.vFunc 10), ("fromPayload", JSValue.vFunc 11)]

/-- A concrete custom codec instance (a plain object, not a list). -/
def customCodec : JSValue :=
  JSValue.vObj [("encode", JSValue.vFunc 20), ("decode", JSValue.vFunc 21)]

/-- A concrete module system used in witnesses: `"missing"` fails with
`MODULE_NOT_FOUND`, `"crashing"` fails with a different error code,
`"selfshaped"` resolves to a module that is itself converter-shaped but
has no `payloadConverter` named export, `"nodecode"` resolves to a module
whose `payloadConverter` export has `toPayload` but lacks `fromPayload`,
and every other path resolves to a module whose `payloadConverter` export
is a string (wrong shape). -/
def sampleModules : ModuleSystem := fun path =>
  if path = "missing" then
    RequireResult.err ⟨"Error", some "MODULE_NOT_FOUND", "Cannot find module"⟩
  else if path = "crashing" then
    RequireResult.err ⟨"TypeError", none, "boom during module evaluation"⟩
  else if path = "selfshaped" then
    RequireResult.ok (JSValue.vObj [("toPayload", JSValue.vFunc 30), ("fromPayload", JSValue.vFunc 31)])
  else if path = "nodecode" then
    RequireResult.ok (JSValue.vObj [("payloadConverter", JSValue.vObj [("toPayload", JSValue.vFunc 40)])])
  else
    RequireResult.ok (JSValue.vObj [("payloadConverter", JSValue.vStr "nope")])

/-- The structural shape check written out: equivalence between the
source predicate and the spec's description (a non-null object whose
`toPayload` and `fromPayload` members are callable). -/
theorem isValidPayloadConverter_iff (p : JSValue) :
    isValidPayloadConverter p = true ↔
      (jsTypeof p = "object" ∧ isNull p = false ∧
       jsTypeof (getProp p "toPayload") = "function" ∧
       jsTypeof (getProp p "fromPayload") = "function") := by
  simp [isValidPayloadConverter, Bool.and_eq_true, List.all_cons, List.all_nil,
    Bool.not_eq_true', and_assoc]

/-- Claim C1 (counterexample): with a pre-built converter instance
supplied directly and no `payloadConverterPath`, `loadDataConverter`
returns the default converter, not the supplied instance — the
`payloadConverter` configuration field is never consulted. -/
theorem c1_counterexample :
    loadDataConverter emptyModules (some ⟨none, some customConverter, none⟩) =
      Except.ok ⟨defaultPayloadConverter, defaultPayloadCodec⟩ ∧
    defaultPayloadConverter ≠ customConverter := by
  refine ⟨rfl, ?_⟩
  simp [defaultPayloadConverter, customConverter]

/-- Claim C1 (amended): when no `payloadConverterPath` is supplied,
`loadDataConverter` returns the default payload converter regardless of
any directly supplied `payloadConverter` instance; the direct instance
is ignored. -/
theorem c1_direct_instance_ignored (ms : ModuleSystem) (d : DataConverter)
    (hpath : d.payloadConverterPath = none) :
    loadDataConverter ms (some d) =
      Except.ok ⟨defaultPayloadConverter, d.payloadCodec.getD defaultPayloadCodec⟩ := by
  simp [loadDataConverter, Option.bind, hpath]

/-- Witness for `c1_direct_instance_ignored` at a concrete configuration. -/
theorem c1_direct_instance_ignored_witness :
    loadDataConverter emptyModules (some ⟨none, some customConverter, none⟩) =
      Except.ok ⟨defaultPayloadConverter, defaultPayloadCodec⟩ :=
  c1_direct_instance_ignored emptyModules ⟨none, some customConverter, none⟩ rfl

/-- Claim C2 (counterexample): at concrete inputs, the error raised for a
module that cannot be located and the error raised for a resolved export
of the wrong shape have the same runtime type (`ValueError`), so the two
conditions are not signalled by distinct error types. -/
theorem c2_counterexample :
    ∃ e1 e2, requirePayloadConverter sampleModules "missing" = Except.error e1 ∧
      requirePayloadConverter sampleModules "badshape" = Except.error e2 ∧
      ThrownError.typeName e1 = ThrownError.typeName e2 :=
  ⟨ThrownError.valueError (notFoundMessage "missing"),
   ThrownError.valueError (invalidShapeMessage "badshape"), rfl, rfl, rfl⟩

/-- Claim C2 (amended): both failure conditions raise the single specific
error class `ValueError` — never a plain rethrown error — and are
distinguished by their messages, not by their types. -/
theorem c2_single_error_type (ms : ModuleSystem) (path : String) (e : JSError) (m : JSValue) :
    (ms path = RequireResult.err e → errorCode e = some "MODULE_NOT_FOUND" →
      requirePayloadConverter ms path =
        Except.error (ThrownError.valueError (notFoundMessage path))) ∧
    (ms path = RequireResult.ok m → hasOwnProperty m "payloadConverter" = true →
      isValidPayloadConverter (getProp m "payloadConverter") = false →
      requirePayloadConverter ms path =
        Except.error (ThrownError.valueError (invalidShapeMessage path))) := by
  constructor
  · intro hreq hcode
    simp [requirePayloadConverter, hreq, hcode]
  · intro hreq hown hvalid
    simp [requirePayloadConverter, hreq, hown, hvalid]

/-- Witness for `c2_single_error_type` at concrete inputs: both conditions
produce a `ValueError`, with distinct messages. -/
theorem c2_single_error_type_witness :
    requirePayloadConverter sampleModules "missing" =
      Except.error (ThrownError.valueError (notFoundMessage "missing")) ∧
    requirePayloadConverter sampleModules "badshape" =
      Except.error (ThrownError.valueError (invalidShapeMessage "badshape")) ∧
    notFoundMessage "missing" ≠ invalidShapeMessage "badshape" :=
  ⟨(c2_single_error_type sampleModules "missing"
      ⟨"Error", some "MODULE_NOT_FOUND", "Cannot find module"⟩ JSValue.vNull).1 rfl rfl,
   (c2_single_error_type sampleModules "badshape"
      ⟨"Error", none, ""⟩ (JSValue.vObj [("payloadConverter", JSValue.vStr "nope")])).2 rfl rfl rfl,
   by decide⟩

/-- Claim C3: with no converter or codec override — an absent
configuration or one with every field absent — `loadDataConverter`
returns the default payload converter paired with the default codec. -/
theorem c3_no_override_defaults (ms : ModuleSystem) (dc : Option DataConverter)
    (h : dc = none ∨ dc = some ⟨none, none, none⟩) :
    loadDataConverter ms dc = Except.ok ⟨defaultPayloadConverter, defaultPayloadCodec⟩ := by
  rcases h with h | h <;> subst h <;> rfl

/-- Witness for `c3_no_override_defaults` at the absent configuration. -/
theorem c3_no_override_defaults_witness :
    loadDataConverter emptyModules none =
      Except.ok ⟨defaultPayloadConverter, defaultPayloadCodec⟩ :=
  c3_no_override_defaults emptyModules none (Or.inl rfl)

/-- Claim C4: when a truthy `payloadConverterPath` is supplied and
`requirePayloadConverter` fails on it, `loadDataConverter` propagates
the failure; it never returns a `LoadedDataConverter` (in particular it
never silently falls back to the default converter). -/
theorem c4_no_silent_fallback (ms : ModuleSystem) (d : DataConverter) (path : String)
    (e : ThrownError) (hpath : d.payloadConverterPath = some path) (hne : path ≠ "")
    (herr : requirePayloadConverter ms path = Except.error e) :
    loadDataConverter ms (some d) = Except.error e := by
  simp [loadDataConverter, Option.bind, hpath, hne, herr]

/-- Witness for `c4_no_silent_fallback` at a concrete missing module. -/
theorem c4_no_silent_fallback_witness :
    loadDataConverter sampleModules (some ⟨some "missing", none, none⟩) =
      Except.error (ThrownError.valueError (notFoundMessage "missing")) :=
  c4_no_silent_fallback sampleModules ⟨some "missing", none, none⟩ "missing"
    (ThrownError.valueError (notFoundMessage "missing")) rfl (by decide) rfl

/-- Claim C5: for a resolved module exposing a `payloadConverter` named
export, loading succeeds with exactly that export iff the export is a
non-null object with callable `toPayload` and `fromPayload` members;
otherwise the invalid-shape `ValueError` is raised, whose message names
both required capabilities (in particular the missing one). -/
theorem c5_shape_check (ms : ModuleSystem) (path : String) (m : JSValue)
    (hreq : ms path = RequireResult.ok m)
    (hown : hasOwnProperty m "payloadConverter" = true) :
    (requirePayloadConverter ms path = Except.ok (getProp m "payloadConverter") ↔
      (jsTypeof (getProp m "payloadConverter") = "object" ∧
       isNull (getProp m "payloadConverter") = false ∧
       jsTypeof (getProp (getProp m "payloadConverter") "toPayload") = "function" ∧
       jsTypeof (getProp (getProp m "payloadConverter") "fromPayload") = "function")) ∧
    (isValidPayloadConverter (getProp m "payloadConverter") = false →
      requirePayloadConverter ms path =
        Except.error (ThrownError.valueError (invalidShapeMessage path))) ∧
    (∃ a b c, invalidShapeMessage path = a ++ "toPayload" ++ b ++ "fromPayload" ++ c) := by
  refine ⟨?_, ?_, ?_⟩
  · rw [← isValidPayloadConverter_iff]
    constructor
    · intro hok
      by_cases hv : isValidPayloadConverter (getProp m "payloadConverter")
      · exact hv
      · rw [Bool.not_eq_true] at hv
        simp [requirePayloadConverter, hreq, hown, hv] at hok
    · intro hv
      simp [requirePayloadConverter, hreq, hown, hv]
  · intro hv
    simp [requirePayloadConverter, hreq, hown, hv]
  · exact ⟨"payloadConverter export at " ++ path ++ " must be an object with ", " and ",
      " methods", by simp [invalidShapeMessage, String.append_assoc]⟩

/-- Witness for `c5_shape_check`: a resolved export missing the decode
capability (`fromPayload`) raises the invalid-shape `ValueError`. -/
theorem c5_shape_check_witness :
    requirePayloadConverter sampleModules "nodecode" =
      Except.error (ThrownError.valueError (invalidShapeMessage "nodecode")) :=
  (c5_shape_check sampleModules "nodecode"
    (JSValue.vObj [("payloadConverter", JSValue.vObj [("toPayload", JSValue.vFunc 40)])])
    rfl rfl).2.1 rfl

/-- Claim C6: when `require` fails with `MODULE_NOT_FOUND`, the raised
`ValueError` has a message containing the given path verbatim. -/
theorem c6_not_found_names_path (ms : ModuleSystem) (path : String) (e : JSError)
    (hreq : ms path = RequireResult.err e)
    (hcode : errorCode e = some "MODULE_NOT_FOUND") :
    ∃ pre post, requirePayloadConverter ms path =
      Except.error (ThrownError.valueError (pre ++ path ++ post)) := by
  refine ⟨"Could not find a file at the specified payloadConverterPath: \x27", "\x27.", ?_⟩
  simp [requirePayloadConverter, hreq, hcode, notFoundMessage]

/-- Witness for `c6_not_found_names_path` at a concrete missing module. -/
theorem c6_not_found_names_path_witness :
    ∃ pre post, requirePayloadConverter sampleModules "missing" =
      Except.error (ThrownError.valueError (pre ++ "missing" ++ post)) :=
  c6_not_found_names_path sampleModules "missing"
    ⟨"Error", some "MODULE_NOT_FOUND", "Cannot find module"⟩ rfl rfl

/-- Claim C7 (counterexample): a supplied single codec instance is placed
in the result unchanged; it is not normalized into an ordered pipeline
(one-element list), as comparison with the spec-described normalization
shows. -/
theorem c7_counterexample :
    loadDataConverter emptyModules (some ⟨none, none, some customCodec⟩) =
      Except.ok ⟨defaultPayloadConverter, customCodec⟩ ∧
    customCodec ≠ normalizeCodecSpec customCodec := by
  refine ⟨rfl, fun h => ?_⟩
  simp [customCodec, normalizeCodecSpec] at h

/-- Claim C7 (amended): whenever `loadDataConverter` succeeds, the
returned `payloadCodec` is the supplied codec value unchanged when one
was supplied, and the default codec when absent. -/
theorem c7_codec_passthrough (ms : ModuleSystem) (dc : Option DataConverter)
    (res : LoadedDataConverter) (h : loadDataConverter ms dc = Except.ok res) :
    res.payloadCodec = (dc.bind fun d => d.payloadCodec).getD defaultPayloadCodec := by
  simp only [loadDataConverter] at h
  split at h
  · split at h
    · split at h
      · injection h with h2
        subst h2
        rfl
      · exact Except.noConfusion h
    · injection h with h2
      subst h2
      rfl
  · injection h with h2
    subst h2
    rfl

/-- Witness for `c7_codec_passthrough` at a concrete configuration with a
supplied codec instance. -/
theorem c7_codec_passthrough_witness :
    LoadedDataConverter.payloadCodec ⟨defaultPayloadConverter, customCodec⟩ =
      (Option.bind (some (⟨none, none, some customCodec⟩ : DataConverter))
        (fun d => d.payloadCodec)).getD defaultPayloadCodec :=
  c7_codec_passthrough emptyModules (some ⟨none, none, some customCodec⟩)
    ⟨defaultPayloadConverter, customCodec⟩ rfl

/-- Claim C8: a resolved module without a `payloadConverter` named export
is rejected with a `ValueError`, regardless of the module's own shape. -/
theorem c8_named_export_required (ms : ModuleSystem) (path : String) (m : JSValue)
    (hreq : ms path = RequireResult.ok m)
    (hown : hasOwnProperty m "payloadConverter" = false) :
    requirePayloadConverter ms path =
      Except.error (ThrownError.valueError (missingExportMessage path)) := by
  simp [requirePayloadConverter, hreq, hown]

/-- Witness for `c8_named_export_required`: a module that is itself
converter-shaped (callable `toPayload` and `fromPayload` at top level)
but lacks the named export is still rejected. -/
theorem c8_named_export_required_witness :
    isValidPayloadConverter
      (JSValue.vObj [("toPayload", JSValue.vFunc 30), ("fromPayload", JSValue.vFunc 31)]) = true ∧
    requirePayloadConverter sampleModules "selfshaped" =
      Except.error (ThrownError.valueError (missingExportMessage "selfshaped")) :=
  ⟨rfl, c8_named_export_required sampleModules "selfshaped"
    (JSValue.vObj [("toPayload", JSValue.vFunc 30), ("fromPayload", JSValue.vFunc 31)]) rfl rfl⟩

/-- Claim C9: an empty-string `payloadConverterPath` is falsy and treated
as absent — the result equals the default-converter result for every
module system (so no module resolution is attempted and no error is
raised). -/
theorem c9_empty_path_treated_absent (ms : ModuleSystem) (pcInst codec : Option JSValue) :
    loadDataConverter ms (some ⟨some "", pcInst, codec⟩) =
      Except.ok ⟨defaultPayloadConverter, codec.getD defaultPayloadCodec⟩ := rfl

/-- Claim C10: when `require` fails with an error whose code is not
`MODULE_NOT_FOUND`, that original error is rethrown unchanged out of
`loadDataConverter`, not replaced by a `ValueError`. -/
theorem c10_foreign_error_propagated (ms : ModuleSystem) (d : DataConverter) (path : String)
    (e : JSError) (hpath : d.payloadConverterPath = some path) (hne : path ≠ "")
    (hreq : ms path = RequireResult.err e)
    (hcode : errorCode e ≠ some "MODULE_NOT_FOUND") :
    loadDataConverter ms (some d) = Except.error (ThrownError.other e) := by
  simp [loadDataConverter, Option.bind, hpath, hne, requirePayloadConverter, hreq, hcode]

/-- Witness for `c10_foreign_error_propagated`: a module that throws
during evaluation (no `MODULE_NOT_FOUND` code) has its error propagated
unchanged. -/
theorem c10_foreign_error_propagated_witness :
    loadDataConverter sampleModules (some ⟨some "crashing", none, none⟩) =
      Except.error (ThrownError.other ⟨"TypeError", none, "boom during module evaluation"⟩) :=
  c10_foreign_error_propagated sampleModules ⟨some "crashing", none, none⟩ "crashing"
    ⟨"TypeError", none, "boom during module evaluation"⟩ rfl (by decide) rfl (by decide)
